import Mathlib

/-!
Verification development for the spotify-mcp-server repository (consolidated-tool
variant). The handlers in src/playback.ts, src/library.ts, src/info.ts and
src/read.ts are pure dispatch-and-format code around an external SDK client;
they are embedded here as total functions from the decoded argument record and
the (oracle-supplied) service responses to the pair of external-API requests
issued and the text of the returned envelope. Floating-point fields of the
audio-features record are carried as their already-rendered strings, since
their formatting is JavaScript float behaviour outside this embedding; every
other formatting step is translated from the source.
-/

set_option maxHeartbeats 1000000

/-- Truthiness of an optional string argument under the JavaScript rules the
handlers use: an absent value and the empty string are falsy, every other
string is truthy. -/
def truthyStr : Option String → Bool
  | none => false
  | some s => s != ""

/-- Interpolation of a possibly absent string into a template: JavaScript
renders an undefined value as the text undefined. -/
def jsStr : Option String → String
  | none => "undefined"
  | some s => s

/-- Truthiness of the JavaScript test xs?.length on an optional array: true
exactly when the array is present and non-empty. -/
def hasElems {α : Type} : Option (List α) → Bool
  | none => false
  | some [] => false
  | some (_ :: _) => true

/-- Search and item type enumeration (the zod enum track, album, artist,
playlist shared by the tools). -/
inductive SearchType
  | track
  | album
  | artist
  | playlist
deriving DecidableEq, Repr

/-- String value of a search type, as carried by the zod enum. -/
def SearchType.label : SearchType → String
  | .track => "track"
  | .album => "album"
  | .artist => "artist"
  | .playlist => "playlist"

/-- Artist object: the fields the formatters read from the external response. -/
structure ArtistObj where
  name : String
  id : String
deriving DecidableEq, Repr

/-- Join of artist names, following the source pattern
artists.map(a => a.name).join(', '). -/
def joinNames (artists : List ArtistObj) : String :=
  String.intercalate ", " (artists.map ArtistObj.name)

/-- Track object (the fields used by the formatters). -/
structure TrackObj where
  id : String
  name : String
  artists : List ArtistObj
  duration_ms : Nat
deriving DecidableEq, Repr

/-- Album object (the fields used by the formatters). -/
structure AlbumObj where
  id : String
  name : String
  artists : List ArtistObj
  total_tracks : Nat
deriving DecidableEq, Repr

/-- Playlist object inside search results; the description and the owner
display name may be absent. -/
structure PlaylistObj where
  id : String
  name : String
  description : Option String
  owner_display_name : Option String
deriving DecidableEq, Repr

/-- Search response: one optional item list per searchable type. A missing
list models the JavaScript field being undefined; an empty list is a present,
empty result set (an empty array is truthy in JavaScript). -/
structure SearchResults where
  tracks : Option (List TrackObj) := none
  albums : Option (List AlbumObj) := none
  artists : Option (List ArtistObj) := none
  playlists : Option (List (Option PlaylistObj)) := none

/-- Value of an item's track field once present: either a real track, which
passes the isTrack type guard, or some other item kind such as a podcast
episode, which fails it. -/
inductive PTrack
  | track (t : TrackObj)
  | nonTrack
deriving DecidableEq, Repr

/-- List entry as the library tool reads it: just an optional track field. -/
structure TrackEntry where
  track : Option PTrack
deriving DecidableEq, Repr

/-- Paged response: the item page plus the service-reported total. -/
structure Paged (α : Type) where
  items : List α
  total : Nat

/-- Playlist summary consumed by the playlists operation; the nested
tracks.total may be absent. -/
structure PlaylistSummary where
  id : String
  name : String
  tracks_total : Option Nat
deriving DecidableEq, Repr

/-- Saved-track entry as the read tool consumes it; added_at_str stands for
the locale-rendered added date, which is environment-dependent and therefore
kept opaque. -/
structure SavedTrackEntry where
  track : Option PTrack
  added_at_str : String
deriving DecidableEq, Repr

/-- Modelled from the spec: formatDuration is defined in src/utils.ts, which
is not among the sources; the spec describes it as the pure map from a
millisecond duration to an m:ss string with the seconds zero-padded to two
digits (65000 renders as 1:05). -/
def formatDuration (ms : Nat) : String :=
  let totalSeconds := ms / 1000
  let minutes := totalSeconds / 60
  let seconds := totalSeconds % 60
  toString minutes ++ ":" ++ (if seconds < 10 then "0" else "") ++ toString seconds

/-- Key-name table of getTrackAudioFeatures in read.ts line 558 (sharp/flat
pair names). -/
def keyNames : List String :=
  ["C", "C♯/D♭", "D", "D♯/E♭", "E", "F", "F♯/G♭", "G", "G♯/A♭", "A", "A♯/B♭", "B"]

/-- Key-name table of the audio_features branch in info.ts line 122 (sharp
names only). -/
def infoKeyNames : List String :=
  ["C", "C♯", "D", "D♯", "E", "F", "F♯", "G", "G♯", "A", "A♯", "B"]

/-- Key rendering pattern key !== -1 ? table[key] : 'Unknown' of read.ts line
559 and info.ts line 123. The table is only indexed when the key differs from
-1; a JavaScript out-of-range index reads as undefined. -/
def keyNameOf (table : List String) (key : Int) : String :=
  if key ≠ -1 then
    (if key < 0 then "undefined" else jsStr table[key.toNat]?)
  else "Unknown"

/-- Formatter pattern items.map((x, i) => line(i, x)).join('\n') used by every
list-shaped formatter in the source. -/
def numberedJoin {α : Type} (line : Nat → α → String) (items : List α) : String :=
  String.intercalate "\n" (items.enum.map fun p => line p.1 p.2)

/-- Operations of the consolidated library tool. -/
inductive LibraryOp
  | search
  | playlists
  | playlist_tracks
  | saved_tracks
  | recently_played
  | albums
  | album_tracks
  | save_album
  | remove_album
  | check_saved
deriving DecidableEq, Repr

/-- Argument record of the library tool after zod decoding; optional fields
may be absent. -/
structure LibraryArgs where
  operation : LibraryOp
  query : Option String := none
  type : Option SearchType := none
  playlist_id : Option String := none
  album_ids : Option (List String) := none
  limit : Option Nat := none
  offset : Option Nat := none

/-- External-API request issued by the library tool, carrying exactly the
data passed to the SDK call. -/
inductive LibraryRequest
  | search (query : String) (type : SearchType) (limit : Nat)
  | getPlaylists (limit : Nat)
  | getPlaylistItems (playlistId : String) (limit offset : Nat)
  | getSavedTracks (limit offset : Nat)
  | getRecentlyPlayed (limit : Nat)
  | getAlbums (ids : List String)
  | getAlbumTracks (id : String) (limit offset : Nat)
  | saveAlbums (ids : List String)
  | removeSavedAlbums (ids : List String)
  | hasSavedAlbums (ids : List String)
deriving DecidableEq, Repr

/-- Service responses the library handler may consume, supplied as an oracle. -/
structure LibraryResponses where
  searchResults : SearchResults := {}
  playlists : Paged PlaylistSummary := { items := [], total := 0 }
  playlistTracks : Paged TrackEntry := { items := [], total := 0 }
  savedTracks : Paged TrackEntry := { items := [], total := 0 }
  recentlyPlayed : List TrackEntry := []
  albums : List AlbumObj := []
  albumTracks : List TrackObj := []
  hasSaved : List Bool := []

/-- Search-result formatting of the library tool (library.ts lines 57 to 72);
an absent per-type list skips its branch and leaves the text empty. -/
def librarySearchText (ty : SearchType) (r : SearchResults) : String :=
  match ty with
  | .track =>
    match r.tracks with
    | some items =>
      numberedJoin (fun i t =>
        toString (i + 1) ++ ". \"" ++ t.name ++ "\" by " ++ joinNames t.artists ++
          " - ID: " ++ t.id) items
    | none => ""
  | .album =>
    match r.albums with
    | some items =>
      numberedJoin (fun i a =>
        toString (i + 1) ++ ". \"" ++ a.name ++ "\" by " ++ joinNames a.artists ++
          " - ID: " ++ a.id) items
    | none => ""
  | .artist =>
    match r.artists with
    | some items =>
      numberedJoin (fun i a => toString (i + 1) ++ ". " ++ a.name ++ " - ID: " ++ a.id) items
    | none => ""
  | .playlist =>
    match r.playlists with
    | some items =>
      numberedJoin (fun i p =>
        toString (i + 1) ++ ". \"" ++ jsStr (p.map PlaylistObj.name) ++ "\" by " ++
          jsStr (p.bind PlaylistObj.owner_display_name) ++ " - ID: " ++
          jsStr (p.map PlaylistObj.id)) items
    | none => ""

/-- Track line of the library list operations; a missing or non-track item
renders the placeholder [Unknown] (library.ts lines 93 to 97). -/
def libTrackLine (offset i : Nat) (e : TrackEntry) : String :=
  match e.track with
  | some (.track t) =>
    toString (offset + i + 1) ++ ". \"" ++ t.name ++ "\" by " ++ joinNames t.artists ++
      " - ID: " ++ t.id
  | _ => toString (offset + i + 1) ++ ". [Unknown]"

/-- Per-ID status lines of check_saved (library.ts line 178); an index beyond
the service response reads as undefined, hence falsy, hence not saved. -/
def checkSavedLines (ids : List String) (saved : List Bool) : List String :=
  ids.enum.map fun p =>
    p.2 ++ ": " ++ (if (saved[p.1]?).getD false then "saved" else "not saved")

/-- Shallow embedding of the spotify_library handler (library.ts lines 45 to
185): given the decoded arguments and the service responses it returns the
external-API requests issued together with the text of the returned envelope. -/
def spotifyLibraryRun (args : LibraryArgs) (resp : LibraryResponses) :
    List LibraryRequest × String :=
  let limit := args.limit.getD 20
  let offset := args.offset.getD 0
  match args.operation with
  | .search =>
    if !truthyStr args.query || args.type.isNone then
      ([], "Error: query and type required")
    else
      let q := args.query.getD ""
      let ty := args.type.getD .track
      let text := librarySearchText ty resp.searchResults
      ([.search q ty limit], if text = "" then "No results" else text)
  | .playlists =>
    let text := numberedJoin (fun i p =>
      toString (i + 1) ++ ". \"" ++ p.name ++ "\" (" ++ toString (p.tracks_total.getD 0) ++
        " tracks) - ID: " ++ p.id) resp.playlists.items
    ([.getPlaylists limit], if text = "" then "No playlists" else text)
  | .playlist_tracks =>
    if !truthyStr args.playlist_id then
      ([], "Error: playlist_id required")
    else
      let pid := args.playlist_id.getD ""
      let text := numberedJoin (libTrackLine offset) resp.playlistTracks.items
      ([.getPlaylistItems pid limit offset],
        "Tracks " ++ toString (offset + 1) ++ "-" ++
          toString (offset + resp.playlistTracks.items.length) ++ " of " ++
          toString resp.playlistTracks.total ++ "\n\n" ++ text)
  | .saved_tracks =>
    let text := numberedJoin (libTrackLine offset) resp.savedTracks.items
    ([.getSavedTracks limit offset],
      "Liked Songs " ++ toString (offset + 1) ++ "-" ++
        toString (offset + resp.savedTracks.items.length) ++ " of " ++
        toString resp.savedTracks.total ++ "\n\n" ++ text)
  | .recently_played =>
    let text := numberedJoin (libTrackLine 0) resp.recentlyPlayed
    ([.getRecentlyPlayed limit], if text = "" then "No history" else text)
  | .albums =>
    match args.album_ids with
    | some ids =>
      if ids.isEmpty then ([], "Error: album_ids required")
      else
        let text := numberedJoin (fun i a =>
          toString (i + 1) ++ ". \"" ++ a.name ++ "\" by " ++ joinNames a.artists ++
            " (" ++ toString a.total_tracks ++ " tracks) - ID: " ++ a.id) resp.albums
        ([.getAlbums (ids.take 20)], text)
    | none => ([], "Error: album_ids required")
  | .album_tracks =>
    match args.album_ids with
    | some ids =>
      if !truthyStr ids[0]? then ([], "Error: album_ids[0] required")
      else
        let id0 := (ids[0]?).getD ""
        let text := numberedJoin (fun i t =>
          toString (offset + i + 1) ++ ". \"" ++ t.name ++ "\" by " ++ joinNames t.artists ++
            " (" ++ formatDuration t.duration_ms ++ ") - ID: " ++ t.id) resp.albumTracks
        ([.getAlbumTracks id0 limit offset], text)
    | none => ([], "Error: album_ids[0] required")
  | .save_album =>
    match args.album_ids with
    | some ids =>
      if ids.isEmpty then ([], "Error: album_ids required")
      else ([.saveAlbums (ids.take 20)],
        "Saved " ++ toString ids.length ++ " album(s)")
    | none => ([], "Error: album_ids required")
  | .remove_album =>
    match args.album_ids with
    | some ids =>
      if ids.isEmpty then ([], "Error: album_ids required")
      else ([.removeSavedAlbums (ids.take 20)],
        "Removed " ++ toString ids.length ++ " album(s)")
    | none => ([], "Error: album_ids required")
  | .check_saved =>
    match args.album_ids with
    | some ids =>
      if ids.isEmpty then ([], "Error: album_ids required")
      else ([.hasSavedAlbums (ids.take 20)],
        String.intercalate "\n" (checkSavedLines ids resp.hasSaved))
    | none => ([], "Error: album_ids required")

/-- Operations of the playback tool. -/
inductive PlaybackOp
  | play
  | pause
  | resume
  | skip_next
  | skip_prev
  | queue
  | create_playlist
  | add_to_playlist
deriving DecidableEq, Repr

/-- Argument record of the playback tool after zod decoding. -/
structure PlaybackArgs where
  operation : PlaybackOp
  uri : Option String := none
  type : Option SearchType := none
  id : Option String := none
  device_id : Option String := none
  name : Option String := none
  description : Option String := none
  isPublic : Option Bool := none
  playlist_id : Option String := none
  track_ids : Option (List String) := none
  position : Option Nat := none

/-- External-API request issued by the playback tool. -/
inductive PlaybackRequest
  | startResumeTracks (deviceId : String) (uris : List String)
  | startResumeContext (deviceId : String) (contextUri : String)
  | startResumePlain (deviceId : String)
  | pausePlayback (deviceId : String)
  | skipToNext (deviceId : String)
  | skipToPrevious (deviceId : String)
  | addItemToPlaybackQueue (uri deviceId : String)
  | getProfile
  | createPlaylist (userId name : String) (description : Option String) (isPublic : Bool)
  | addItemsToPlaylist (playlistId : String) (uris : List String) (position : Option Nat)
deriving DecidableEq, Repr

/-- Service responses consumed by the playback tool; only create_playlist
reads any (the profile id and the created playlist id). -/
structure PlaybackResponses where
  userId : String := ""
  createdPlaylistId : String := ""

/-- Shallow embedding of the spotify_playback handler (playback.ts lines 46
to 133): the requests issued and the text of the returned envelope. -/
def spotifyPlaybackRun (args : PlaybackArgs) (resp : PlaybackResponses) :
    List PlaybackRequest × String :=
  let dev := args.device_id.getD ""
  let typeStr := match args.type with | some t => t.label | none => "undefined"
  let spotifyUri :=
    if truthyStr args.uri then args.uri.getD ""
    else "spotify:" ++ typeStr ++ ":" ++ jsStr args.id
  match args.operation with
  | .play =>
    if !(truthyStr args.uri || (args.type.isSome && truthyStr args.id)) then
      ([], "Error: Provide uri OR type+id")
    else
      let req :=
        if args.type = some SearchType.track then
          PlaybackRequest.startResumeTracks dev [spotifyUri]
        else
          PlaybackRequest.startResumeContext dev spotifyUri
      ([req], "Playing " ++ (match args.type with | some t => t.label | none => "music"))
  | .pause => ([.pausePlayback dev], "Paused")
  | .resume => ([.startResumePlain dev], "Resumed")
  | .skip_next => ([.skipToNext dev], "Skipped to next")
  | .skip_prev => ([.skipToPrevious dev], "Skipped to previous")
  | .queue =>
    if !(truthyStr args.uri || (args.type.isSome && truthyStr args.id)) then
      ([], "Error: Provide uri OR type+id")
    else
      ([.addItemToPlaybackQueue spotifyUri dev], "Added to queue: " ++ spotifyUri)
  | .create_playlist =>
    if !truthyStr args.name then
      ([], "Error: name required")
    else
      let nm := args.name.getD ""
      ([.getProfile,
        .createPlaylist resp.userId nm args.description (args.isPublic.getD false)],
        "Created playlist \"" ++ nm ++ "\" (ID: " ++ resp.createdPlaylistId ++ ")")
  | .add_to_playlist =>
    if !truthyStr args.playlist_id || !hasElems args.track_ids then
      ([], "Error: playlist_id and track_ids required")
    else
      let pid := args.playlist_id.getD ""
      let ids := args.track_ids.getD []
      let trackUris := ids.map (fun id => "spotify:track:" ++ id)
      ([.addItemsToPlaylist pid trackUris args.position],
        "Added " ++ toString ids.length ++ " tracks to playlist")

/-- Search-result formatting of the read tool searchSpotify (read.ts lines 51
to 86). -/
def readSearchFormatted (ty : SearchType) (r : SearchResults) : String :=
  match ty with
  | .track =>
    match r.tracks with
    | some items =>
      numberedJoin (fun i t =>
        toString (i + 1) ++ ". \"" ++ t.name ++ "\" by " ++ joinNames t.artists ++
          " (" ++ formatDuration t.duration_ms ++ ") - ID: " ++ t.id) items
    | none => ""
  | .album =>
    match r.albums with
    | some items =>
      numberedJoin (fun i a =>
        toString (i + 1) ++ ". \"" ++ a.name ++ "\" by " ++ joinNames a.artists ++
          " - ID: " ++ a.id) items
    | none => ""
  | .artist =>
    match r.artists with
    | some items =>
      numberedJoin (fun i a => toString (i + 1) ++ ". " ++ a.name ++ " - ID: " ++ a.id) items
    | none => ""
  | .playlist =>
    match r.playlists with
    | some items =>
      numberedJoin (fun i p =>
        toString (i + 1) ++ ". \"" ++ ((p.map PlaylistObj.name).getD "Unknown Playlist") ++
          " (" ++ ((p.bind PlaylistObj.description).getD "No description") ++
          " tracks)\" by " ++ jsStr (p.bind PlaylistObj.owner_display_name) ++
          " - ID: " ++ jsStr (p.map PlaylistObj.id)) items
    | none => ""

/-- Shallow embedding of the text returned by the read tool searchSpotify
(read.ts lines 37 to 111). -/
def searchSpotifyText (query : String) (ty : SearchType) (r : SearchResults) : String :=
  let formattedResults := readSearchFormatted ty r
  if formattedResults.length > 0 then
    "# Search results for \"" ++ query ++ "\" (type: " ++ ty.label ++ ")\n\n" ++
      formattedResults
  else
    "No " ++ ty.label ++ " results found for \"" ++ query ++ "\""

/-- Track line of the read tool getPlaylistTracks (read.ts lines 281 to 293). -/
def readPlaylistTrackLine (offset i : Nat) (e : TrackEntry) : String :=
  match e.track with
  | none => toString (offset + i + 1) ++ ". [Removed track]"
  | some (.track t) =>
    toString (offset + i + 1) ++ ". \"" ++ t.name ++ "\" by " ++ joinNames t.artists ++
      " (" ++ formatDuration t.duration_ms ++ ") - ID: " ++ t.id
  | some .nonTrack => toString (offset + i + 1) ++ ". Unknown item"

/-- Shallow embedding of the text returned by the read tool getPlaylistTracks
(read.ts lines 257 to 304). -/
def getPlaylistTracksText (offset : Option Nat) (resp : Paged TrackEntry) : String :=
  let off := offset.getD 0
  if resp.items.length = 0 then
    "This playlist doesn't have any tracks"
  else
    let body := numberedJoin (readPlaylistTrackLine off) resp.items
    "# Tracks in Playlist (" ++ toString (off + 1) ++ "-" ++
      toString (off + resp.items.length) ++ " of " ++ toString resp.total ++ ")\n\n" ++ body

/-- Saved-track line of the read tool getUsersSavedTracks (read.ts lines 410
to 423); note that the source numbers the placeholder branches without the
offset. -/
def readSavedTrackLine (offset i : Nat) (e : SavedTrackEntry) : String :=
  match e.track with
  | none => toString (i + 1) ++ ". [Removed track]"
  | some (.track t) =>
    toString (offset + i + 1) ++ ". \"" ++ t.name ++ "\" by " ++ joinNames t.artists ++
      " (" ++ formatDuration t.duration_ms ++ ") - ID: " ++ t.id ++
      " - Added: " ++ e.added_at_str
  | some .nonTrack => toString (i + 1) ++ ". Unknown item"

/-- Shallow embedding of the text returned by the read tool
getUsersSavedTracks (read.ts lines 389 to 434). -/
def getUsersSavedTracksText (offset : Option Nat) (resp : Paged SavedTrackEntry) : String :=
  let off := offset.getD 0
  if resp.items.length = 0 then
    "You don't have any saved tracks in your Liked Songs"
  else
    let body := numberedJoin (readSavedTrackLine off) resp.items
    "# Your Liked Songs (" ++ toString (off + 1) ++ "-" ++
      toString (off + resp.items.length) ++ " of " ++ toString resp.total ++ ")\n\n" ++ body

/-- Audio-features record; key and mode are integers from the service, the
remaining numeric fields are carried as their rendered strings since their
floating-point formatting is outside the embedding. -/
structure AudioFeatures where
  key : Int
  mode : Int
  tempoStr : String := ""
  energyStr : String := ""
  danceabilityStr : String := ""
  valenceStr : String := ""
  acousticnessStr : String := ""
  instrumentalnessStr : String := ""
  livenessStr : String := ""
  speechinessStr : String := ""
  loudnessStr : String := ""
  timeSignature : Int := 4
deriving DecidableEq, Repr

/-- Body text built by the read tool getTrackAudioFeatures on a present
features record (read.ts lines 558 to 578). -/
def getTrackAudioFeaturesBody (f : AudioFeatures) : String :=
  let keyName := keyNameOf keyNames f.key
  let mode := if f.mode = 1 then "Major" else "Minor"
  "# Audio Features\n\n" ++
    "**BPM (Tempo)**: " ++ f.tempoStr ++ "\n" ++
    "**Key**: " ++ keyName ++ " " ++ mode ++ "\n" ++
    "**Energy**: " ++ f.energyStr ++ "%\n" ++
    "**Danceability**: " ++ f.danceabilityStr ++ "%\n" ++
    "**Valence (Happiness)**: " ++ f.valenceStr ++ "%\n" ++
    "**Acousticness**: " ++ f.acousticnessStr ++ "%\n" ++
    "**Instrumentalness**: " ++ f.instrumentalnessStr ++ "%\n" ++
    "**Liveness**: " ++ f.livenessStr ++ "%\n" ++
    "**Speechiness**: " ++ f.speechinessStr ++ "%\n" ++
    "**Loudness**: " ++ f.loudnessStr ++ " dB\n" ++
    "**Time Signature**: " ++ toString f.timeSignature ++ "/4"

/-- Whole text of getTrackAudioFeatures given the optional features response. -/
def getTrackAudioFeaturesText (trackId : String) (features : Option AudioFeatures) : String :=
  match features with
  | none => "No audio features found for track ID: " ++ trackId
  | some f => getTrackAudioFeaturesBody f

/-- Request issued by the info-tool branch the claims touch. -/
inductive InfoRequest
  | audioFeatures (trackId : String)
deriving DecidableEq, Repr

/-- Shallow embedding of the audio_features branch of the spotify_info
handler (info.ts lines 110 to 137): the requests issued and the text of the
returned envelope. -/
def infoAudioFeaturesRun (track_id : Option String) (features : Option AudioFeatures) :
    List InfoRequest × String :=
  if !truthyStr track_id then
    ([], "Error: track_id required")
  else
    let req := [InfoRequest.audioFeatures (track_id.getD "")]
    match features with
    | none => (req, "No features found")
    | some f =>
      let key := keyNameOf infoKeyNames f.key
      let mode := if f.mode = 1 then "Major" else "Minor"
      (req, String.intercalate "\n"
        ["**BPM**: " ++ f.tempoStr,
         "**Key**: " ++ key ++ " " ++ mode,
         "**Energy**: " ++ f.energyStr ++ "%",
         "**Danceability**: " ++ f.danceabilityStr ++ "%",
         "**Valence**: " ++ f.valenceStr ++ "%",
         "**Acousticness**: " ++ f.acousticnessStr ++ "%",
         "**Instrumentalness**: " ++ f.instrumentalnessStr ++ "%",
         "**Loudness**: " ++ f.loudnessStr ++ " dB",
         "**Time Sig**: " ++ toString f.timeSignature ++ "/4"])

/-- Sample list of 21 distinct album IDs used by concrete witnesses. -/
def ids21 : List String := (List.range 21).map fun i => "alb" ++ toString i

/-- Claim C1 counterexample: the audio_features operation of the info tool
renders key 1 as C♯, not as the C♯/D♭ entry of the single claimed table, so
the audio-features operations do not all use the claimed 12-entry table. -/
theorem C1_counterexample :
    keyNameOf infoKeyNames 1 = "C♯" ∧ keyNameOf infoKeyNames 1 ≠ "C♯/D♭" ∧
      keyNameOf keyNames 1 = "C♯/D♭" := by
  refine ⟨by decide, by decide, by decide⟩

/-- Claim C1 (amended): for every key value in the range -1 to 11, both
audio-features key renderings return Unknown at -1 without indexing their
table, and otherwise return the k-th entry of their own fixed 12-entry
table: the sharp/flat-pair table in the read tool and the sharp-only table
in the info tool; in both, 0 renders C and 11 renders B. -/
theorem C1_amended (k : Int) (h1 : -1 ≤ k) (h2 : k ≤ 11) :
    (k = -1 → keyNameOf keyNames k = "Unknown" ∧ keyNameOf infoKeyNames k = "Unknown") ∧
    (k ≠ -1 →
      keyNameOf keyNames k =
        (["C", "C♯/D♭", "D", "D♯/E♭", "E", "F", "F♯/G♭", "G", "G♯/A♭", "A", "A♯/B♭",
          "B"].getD k.toNat "") ∧
      keyNameOf infoKeyNames k =
        (["C", "C♯", "D", "D♯", "E", "F", "F♯", "G", "G♯", "A", "A♯", "B"].getD k.toNat "")) ∧
    keyNameOf keyNames 0 = "C" ∧ keyNameOf keyNames 11 = "B" ∧
    keyNameOf infoKeyNames 0 = "C" ∧ keyNameOf infoKeyNames 11 = "B" := by
  interval_cases k <;> decide

/-- Witness for C1_amended at the concrete keys 1 and -1. -/
theorem C1_amended_witness :
    keyNameOf keyNames 1 = "C♯/D♭" ∧ keyNameOf infoKeyNames 1 = "C♯" ∧
      keyNameOf keyNames (-1) = "Unknown" := by
  refine ⟨?_, ?_, ?_⟩
  · exact (((C1_amended 1 (by decide) (by decide)).2.1 (by decide)).1).trans (by decide)
  · exact (((C1_amended 1 (by decide) (by decide)).2.1 (by decide)).2).trans (by decide)
  · exact ((C1_amended (-1) (by decide) (by decide)).1 rfl).1

/-- Claim C9: the duration formatter renders d as minutes d div 60000,
a colon, and the remaining whole seconds zero-padded to two digits; in
particular 65000 renders as 1:05. -/
theorem C9_format_duration :
    (∀ d : Nat, formatDuration d =
      toString (d / 60000) ++ ":" ++
        (if d % 60000 / 1000 < 10 then "0" else "") ++ toString (d % 60000 / 1000)) ∧
    formatDuration 65000 = "1:05" := by
  constructor
  · intro d
    have hs : d % 60000 / 1000 = d / 1000 % 60 := by
      have h := Nat.mod_mul_right_div_self d 1000 60
      norm_num at h
      omega
    simp only [formatDuration]
    rw [Nat.div_div_eq_div_mul, hs]
  · decide

/-- Claim C2: the albums, save_album, remove_album and check_saved
operations pass album_ids.slice(0, 20) to the external call: the whole list
when it has at most 20 elements, and exactly the first 20 elements in input
order otherwise. -/
theorem C2_truncation (ids : List String) (q pid : Option String)
    (ty : Option SearchType) (lim off : Option Nat) (resp : LibraryResponses)
    (hne : ids ≠ []) :
    (spotifyLibraryRun
      { operation := .albums, query := q, type := ty, playlist_id := pid,
        album_ids := some ids, limit := lim, offset := off } resp).1 =
      [LibraryRequest.getAlbums (ids.take 20)] ∧
    (spotifyLibraryRun
      { operation := .save_album, query := q, type := ty, playlist_id := pid,
        album_ids := some ids, limit := lim, offset := off } resp).1 =
      [LibraryRequest.saveAlbums (ids.take 20)] ∧
    (spotifyLibraryRun
      { operation := .remove_album, query := q, type := ty, playlist_id := pid,
        album_ids := some ids, limit := lim, offset := off } resp).1 =
      [LibraryRequest.removeSavedAlbums (ids.take 20)] ∧
    (spotifyLibraryRun
      { operation := .check_saved, query := q, type := ty, playlist_id := pid,
        album_ids := some ids, limit := lim, offset := off } resp).1 =
      [LibraryRequest.hasSavedAlbums (ids.take 20)] ∧
    (ids.length ≤ 20 → ids.take 20 = ids) ∧
    (ids.take 20).length = min 20 ids.length ∧
    (∀ i : Nat, i < 20 → (ids.take 20)[i]? = ids[i]?) := by
  have hempty : ids.isEmpty = false := by
    cases ids with
    | nil => exact absurd rfl hne
    | cons a l => rfl
  refine ⟨?_, ?_, ?_, ?_, fun h => List.take_of_length_le h,
    List.length_take 20 ids, fun i hi => ?_⟩
  · simp [spotifyLibraryRun, hempty]
  · simp [spotifyLibraryRun, hempty]
  · simp [spotifyLibraryRun, hempty]
  · simp [spotifyLibraryRun, hempty]
  · rw [List.getElem?_take]
    simp [hi]

/-- Witness for C2_truncation on a concrete 21-element list. -/
theorem C2_truncation_witness :
    (spotifyLibraryRun { operation := .albums, album_ids := some ids21 } {}).1 =
      [LibraryRequest.getAlbums (ids21.take 20)] ∧
    (ids21.take 20).length = min 20 ids21.length := by
  have h := C2_truncation ids21 none none none none none {} (by decide)
  exact ⟨h.1, h.2.2.2.2.2.1⟩

/-- Claim C10: save_album and remove_album report the length of the full
supplied list in their success message even though only the first 20 IDs are
sent to the service. -/
theorem C10_full_count (ids : List String) (resp : LibraryResponses) (hne : ids ≠ []) :
    spotifyLibraryRun { operation := .save_album, album_ids := some ids } resp =
      ([LibraryRequest.saveAlbums (ids.take 20)],
        "Saved " ++ toString ids.length ++ " album(s)") ∧
    spotifyLibraryRun { operation := .remove_album, album_ids := some ids } resp =
      ([LibraryRequest.removeSavedAlbums (ids.take 20)],
        "Removed " ++ toString ids.length ++ " album(s)") ∧
    (20 < ids.length → (ids.take 20).length = 20 ∧ (ids.take 20).length < ids.length) := by
  have hempty : ids.isEmpty = false := by
    cases ids with
    | nil => exact absurd rfl hne
    | cons a l => rfl
  refine ⟨?_, ?_, fun h => ?_⟩
  · simp [spotifyLibraryRun, hempty]
  · simp [spotifyLibraryRun, hempty]
  · constructor
    · rw [List.length_take]
      omega
    · rw [List.length_take]
      omega

/-- Witness for C10_full_count on a concrete 21-element list. -/
theorem C10_full_count_witness :
    spotifyLibraryRun { operation := .save_album, album_ids := some ids21 } {} =
      ([LibraryRequest.saveAlbums (ids21.take 20)],
        "Saved " ++ toString ids21.length ++ " album(s)") ∧
    (ids21.take 20).length = 20 ∧ (ids21.take 20).length < ids21.length := by
  have h := C10_full_count ids21 {} (by decide)
  exact ⟨h.1, h.2.2 (by decide)⟩

/-- Helper: length of the check_saved status-line list. -/
theorem checkSavedLines_length (ids : List String) (saved : List Bool) :
    (checkSavedLines ids saved).length = ids.length := by
  simp [checkSavedLines]

/-- Helper: index characterization of the check_saved status lines. -/
theorem checkSavedLines_getElem (ids : List String) (saved : List Bool) (i : Nat) :
    (checkSavedLines ids saved)[i]? =
      (ids[i]?).map fun id =>
        id ++ ": " ++ (if (saved[i]?).getD false then "saved" else "not saved") := by
  simp [checkSavedLines, List.getElem?_map, List.getElem?_enum, Option.map_map]
  rfl

/-- Claim C3: check_saved returns one line per supplied ID in input order;
within the range of the service response, a line reads id: saved exactly
when the response reports true at that index, and every line has one of the
two forms (an index beyond the response reads as not saved). -/
theorem C3_check_saved (ids : List String) (saved : List Bool)
    (resp : LibraryResponses) (hne : ids ≠ []) :
    spotifyLibraryRun { operation := .check_saved, album_ids := some ids }
        { resp with hasSaved := saved } =
      ([LibraryRequest.hasSavedAlbums (ids.take 20)],
        String.intercalate "\n" (checkSavedLines ids saved)) ∧
    (checkSavedLines ids saved).length = ids.length ∧
    (∀ i : Nat, i < ids.length → i < saved.length →
      (checkSavedLines ids saved)[i]? =
        some ((ids[i]?).getD "" ++ ": " ++
          (if (saved[i]?).getD false then "saved" else "not saved"))) ∧
    (∀ i : Nat, i < ids.length →
      (checkSavedLines ids saved)[i]? = some ((ids[i]?).getD "" ++ ": " ++ "saved") ∨
      (checkSavedLines ids saved)[i]? = some ((ids[i]?).getD "" ++ ": " ++ "not saved")) := by
  have hempty : ids.isEmpty = false := by
    cases ids with
    | nil => exact absurd rfl hne
    | cons a l => rfl
  refine ⟨by simp [spotifyLibraryRun, hempty], checkSavedLines_length ids saved,
    fun i hi hs => ?_, fun i hi => ?_⟩
  · rw [checkSavedLines_getElem, List.getElem?_eq_getElem hi]
    simp
  · rw [checkSavedLines_getElem, List.getElem?_eq_getElem hi]
    cases hb : (saved[i]?).getD false with
    | true => left; simp [hb]
    | false => right; simp [hb]

/-- Witness for C3_check_saved on three IDs with a two-entry response. -/
theorem C3_check_saved_witness :
    spotifyLibraryRun { operation := .check_saved, album_ids := some ["a", "b", "c"] }
        { hasSaved := [true, false] } =
      ([LibraryRequest.hasSavedAlbums ["a", "b", "c"]],
        "a: saved\nb: not saved\nc: not saved") := by
  have h := C3_check_saved ["a", "b", "c"] [true, false] {} (by decide)
  exact h.1.trans (by decide)

/-- Helper: a string whose final appended chunk is non-empty is non-empty. -/
theorem append_ne_empty_right (a b : String) (h : b.length ≠ 0) : a ++ b ≠ "" := by
  intro hab
  have hl := congrArg String.length hab
  rw [String.length_append] at hl
  simp at hl
  omega

/-- Claim C4 counterexample: the library tool's search operation with an
empty track result set returns the fixed text No results, which does not
name the requested type. -/
theorem C4_counterexample :
    (spotifyLibraryRun { operation := .search, query := some "q", type := some .track }
        { searchResults := { tracks := some [] } }).2 = "No results" ∧
    "No results" ≠ "No track results found" := by
  exact ⟨by decide, by decide⟩

/-- Claim C4 (amended): on an empty result list for the requested type, the
read tool's searchSpotify returns the non-empty text No type results found
for query, naming the requested type, while the library tool's search
operation returns the fixed non-empty text No results. -/
theorem C4_amended (query : String) (ty : SearchType) (r : SearchResults)
    (resp : LibraryResponses) (lim off : Option Nat) (hq : query ≠ "")
    (hempty : match ty with
      | .track => r.tracks = some []
      | .album => r.albums = some []
      | .artist => r.artists = some []
      | .playlist => r.playlists = some []) :
    searchSpotifyText query ty r =
      "No " ++ ty.label ++ " results found for \"" ++ query ++ "\"" ∧
    searchSpotifyText query ty r ≠ "" ∧
    (spotifyLibraryRun
      { operation := .search, query := some query, type := some ty,
        limit := lim, offset := off } { resp with searchResults := r }).2 = "No results" ∧
    ("No results" : String) ≠ "" := by
  have hfmt : readSearchFormatted ty r = "" := by
    cases ty <;> simp_all [readSearchFormatted, numberedJoin] <;> decide
  have hlib : librarySearchText ty r = "" := by
    cases ty <;> simp_all [librarySearchText, numberedJoin] <;> decide
  have h1 : searchSpotifyText query ty r =
      "No " ++ ty.label ++ " results found for \"" ++ query ++ "\"" := by
    simp [searchSpotifyText, hfmt]
  refine ⟨h1, ?_, ?_, by decide⟩
  · rw [h1]
    exact append_ne_empty_right _ "\"" (by decide)
  · simp [spotifyLibraryRun, truthyStr, hq, hlib]

/-- Witness for C4_amended at a concrete query and type. -/
theorem C4_amended_witness :
    searchSpotifyText "hello" .artist { artists := some [] } =
      "No artist results found for \"hello\"" ∧
    (spotifyLibraryRun { operation := .search, query := some "hello", type := some .artist }
        { searchResults := { artists := some [] } }).2 = "No results" := by
  have h := C4_amended "hello" .artist { artists := some [] } {} none none (by decide) rfl
  exact ⟨h.1.trans (by decide), h.2.2.1⟩

/-- Helper: the play success text differs from the playback validation
error. -/
theorem playing_ne_error (m : String) :
    ("Playing " ++ m) ≠ "Error: Provide uri OR type+id" := by
  intro h
  have h2 := congrArg (fun s => s.data.head?) h
  simp [String.data_append] at h2

/-- Helper: the queue success text differs from the playback validation
error. -/
theorem queued_ne_error (m : String) :
    ("Added to queue: " ++ m) ≠ "Error: Provide uri OR type+id" := by
  intro h
  have h2 := congrArg (fun s => s.data.head?) h
  simp [String.data_append] at h2

/-- Claim C5 counterexample: with uri present but equal to the empty string
(type and id absent), the play operation still returns the validation error
and issues no call, refuting the claim that a present uri always suppresses
the validation error. -/
theorem C5_counterexample :
    spotifyPlaybackRun { operation := .play, uri := some "" } {} =
      ([], "Error: Provide uri OR type+id") := by decide

/-- Claim C5 (amended): play and queue return the validation-error text and
issue no call exactly when uri is absent or empty and it is not the case
that type is present and id is present and non-empty; otherwise no
validation error is produced and exactly one call is issued. -/
theorem C5_amended (uri id dev : Option String) (ty : Option SearchType)
    (resp : PlaybackResponses) :
    ((truthyStr uri || (ty.isSome && truthyStr id)) = false →
      spotifyPlaybackRun
        { operation := .play, uri := uri, type := ty, id := id,
          device_id := dev } resp = ([], "Error: Provide uri OR type+id") ∧
      spotifyPlaybackRun
        { operation := .queue, uri := uri, type := ty, id := id,
          device_id := dev } resp = ([], "Error: Provide uri OR type+id")) ∧
    ((truthyStr uri || (ty.isSome && truthyStr id)) = true →
      (spotifyPlaybackRun
        { operation := .play, uri := uri, type := ty, id := id,
          device_id := dev } resp).1.length = 1 ∧
      (spotifyPlaybackRun
        { operation := .play, uri := uri, type := ty, id := id,
          device_id := dev } resp).2 ≠ "Error: Provide uri OR type+id" ∧
      (spotifyPlaybackRun
        { operation := .queue, uri := uri, type := ty, id := id,
          device_id := dev } resp).1.length = 1 ∧
      (spotifyPlaybackRun
        { operation := .queue, uri := uri, type := ty, id := id,
          device_id := dev } resp).2 ≠ "Error: Provide uri OR type+id") := by
  constructor
  · intro h
    constructor <;> simp [spotifyPlaybackRun, h]
  · intro h
    refine ⟨?_, ?_, ?_, ?_⟩
    · simp [spotifyPlaybackRun, h]
    · simp only [spotifyPlaybackRun, h, Bool.not_true, Bool.false_eq_true, if_false]
      exact playing_ne_error _
    · simp [spotifyPlaybackRun, h]
    · simp only [spotifyPlaybackRun, h, Bool.not_true, Bool.false_eq_true, if_false]
      exact queued_ne_error _

/-- Witness for C5_amended at concrete arguments. -/
theorem C5_amended_witness :
    spotifyPlaybackRun { operation := .play } {} = ([], "Error: Provide uri OR type+id") ∧
    (spotifyPlaybackRun { operation := .queue, type := some .track, id := some "x5" } {}).1.length = 1 := by
  refine ⟨((C5_amended none none none none {}).1 (by decide)).1, ?_⟩
  exact ((C5_amended none (some "x5") none (some .track) {}).2 (by decide)).2.2.1

/-- Claim C6 counterexample: with playlist_id present but empty and a
non-empty track_ids list, add_to_playlist still returns the validation error
and issues no call, although the claim requires the call to be made. -/
theorem C6_counterexample :
    spotifyPlaybackRun
      { operation := .add_to_playlist, playlist_id := some "",
        track_ids := some ["t1"] } {} =
      ([], "Error: playlist_id and track_ids required") := by decide

/-- Claim C6 (amended): add_to_playlist returns the validation error and no
call when track_ids is absent or empty or playlist_id is absent or empty;
otherwise it passes exactly the supplied track IDs mapped to
spotify:track: URIs in input order. -/
theorem C6_amended (pid : Option String) (tids : Option (List String))
    (pos : Option Nat) (resp : PlaybackResponses) :
    ((truthyStr pid && hasElems tids) = false →
      spotifyPlaybackRun
        { operation := .add_to_playlist, playlist_id := pid,
          track_ids := tids, position := pos } resp =
        ([], "Error: playlist_id and track_ids required")) ∧
    (∀ ids : List String, tids = some ids → ids ≠ [] → truthyStr pid = true →
      (spotifyPlaybackRun
        { operation := .add_to_playlist, playlist_id := pid,
          track_ids := tids, position := pos } resp).1 =
        [PlaybackRequest.addItemsToPlaylist (pid.getD "")
          (ids.map fun t => "spotify:track:" ++ t) pos] ∧
      (∀ i : Nat, (ids.map fun t => "spotify:track:" ++ t)[i]? =
        (ids[i]?).map fun t => "spotify:track:" ++ t)) := by
  constructor
  · intro h
    have hcond : (!truthyStr pid || !hasElems tids) = true := by
      cases hp : truthyStr pid <;> cases ht : hasElems tids <;> simp_all
    simp [spotifyPlaybackRun, hcond]
  · intro ids htids hne hpid
    subst htids
    have hhas : hasElems (some ids) = true := by
      cases ids with
      | nil => exact absurd rfl hne
      | cons a l => rfl
    refine ⟨by simp [spotifyPlaybackRun, hpid, hhas], fun i => ?_⟩
    exact List.getElem?_map _ _ _

/-- Witness for C6_amended at concrete arguments. -/
theorem C6_amended_witness :
    (spotifyPlaybackRun
      { operation := .add_to_playlist, playlist_id := some "pl1",
        track_ids := some ["aa", "bb"] } {}).1 =
      [PlaybackRequest.addItemsToPlaylist "pl1"
        ["spotify:track:aa", "spotify:track:bb"] none] ∧
    spotifyPlaybackRun { operation := .add_to_playlist } {} =
      ([], "Error: playlist_id and track_ids required") := by
  constructor
  · have h := ((C6_amended (some "pl1") (some ["aa", "bb"]) none {}).2
      ["aa", "bb"] rfl (by decide) (by decide)).1
    exact h.trans (by decide)
  · exact (C6_amended none none none {}).1 (by decide)

/-- Claim C7: the pagination headers report the 1-based inclusive range from
offset+1 to offset+items.length and the service-supplied total: for the read
tool playlist-tracks and saved-tracks operations whenever the returned item
page is non-empty (an empty page is answered with a no-tracks text instead
of a header), and for the library tool playlist_tracks and saved_tracks
operations unconditionally. -/
theorem C7_pagination (off lim : Option Nat) (pid : String)
    (pt : Paged TrackEntry) (st : Paged SavedTrackEntry)
    (lt ls : Paged TrackEntry) (resp : LibraryResponses)
    (hpid : pid ≠ "") (hpt : pt.items ≠ []) (hst : st.items ≠ []) :
    (getPlaylistTracksText off pt =
      "# Tracks in Playlist (" ++ toString (off.getD 0 + 1) ++ "-" ++
        toString (off.getD 0 + pt.items.length) ++ " of " ++ toString pt.total ++
        ")\n\n" ++ numberedJoin (readPlaylistTrackLine (off.getD 0)) pt.items) ∧
    (getUsersSavedTracksText off st =
      "# Your Liked Songs (" ++ toString (off.getD 0 + 1) ++ "-" ++
        toString (off.getD 0 + st.items.length) ++ " of " ++ toString st.total ++
        ")\n\n" ++ numberedJoin (readSavedTrackLine (off.getD 0)) st.items) ∧
    ((spotifyLibraryRun
      { operation := .playlist_tracks, playlist_id := some pid,
        limit := lim, offset := off } { resp with playlistTracks := lt }).2 =
      "Tracks " ++ toString (off.getD 0 + 1) ++ "-" ++
        toString (off.getD 0 + lt.items.length) ++ " of " ++ toString lt.total ++
        "\n\n" ++ numberedJoin (libTrackLine (off.getD 0)) lt.items) ∧
    ((spotifyLibraryRun
      { operation := .saved_tracks, limit := lim, offset := off }
      { resp with savedTracks := ls }).2 =
      "Liked Songs " ++ toString (off.getD 0 + 1) ++ "-" ++
        toString (off.getD 0 + ls.items.length) ++ " of " ++ toString ls.total ++
        "\n\n" ++ numberedJoin (libTrackLine (off.getD 0)) ls.items) := by
  have hpt0 : pt.items.length ≠ 0 := by simpa [List.length_eq_zero] using hpt
  have hst0 : st.items.length ≠ 0 := by simpa [List.length_eq_zero] using hst
  refine ⟨?_, ?_, ?_, ?_⟩
  · simp [getPlaylistTracksText, hpt0]
  · simp [getUsersSavedTracksText, hst0]
  · simp [spotifyLibraryRun, truthyStr, hpid]
  · simp [spotifyLibraryRun]

/-- Witness for C7_pagination at concrete offsets, pages and totals. -/
theorem C7_pagination_witness :
    getPlaylistTracksText (some 5) { items := [{ track := none }], total := 42 } =
      "# Tracks in Playlist (6-6 of 42)\n\n" ++
        numberedJoin (readPlaylistTrackLine 5) [{ track := none }] ∧
    (spotifyLibraryRun { operation := .saved_tracks, offset := some 3 }
        { savedTracks := { items := [{ track := none }, { track := none }], total := 9 } }).2 =
      "Liked Songs 4-5 of 9\n\n" ++
        numberedJoin (libTrackLine 3) [{ track := none }, { track := none }] := by
  have h := C7_pagination (some 3) none "p"
    { items := [{ track := none }], total := 42 }
    { items := [{ track := none, added_at_str := "" }], total := 1 }
    { items := [], total := 0 }
    { items := [{ track := none }, { track := none }], total := 9 } {}
    (by decide) (by decide) (by decide)
  have h5 := C7_pagination (some 5) none "p"
    { items := [{ track := none }], total := 42 }
    { items := [{ track := none, added_at_str := "" }], total := 1 }
    { items := [], total := 0 }
    { items := [{ track := none }, { track := none }], total := 9 } {}
    (by decide) (by decide) (by decide)
  exact ⟨h5.1.trans (by decide), h.2.2.2.trans (by decide)⟩

/-- Claim C8: every listed required-field validation failure (missing
query/type, playlist_id, album_ids, name, track_id, track_ids) makes the
handler return normally with the corresponding error text as envelope
payload, and no external call is issued; the embedded handlers are total
functions, so no exception is involved. -/
theorem C8_validation (resp : LibraryResponses) (presp : PlaybackResponses)
    (q pid nm tid : Option String) (ty : Option SearchType)
    (aids tids : Option (List String)) (lim off pos : Option Nat)
    (desc : Option String) (pub : Option Bool) (feats : Option AudioFeatures) :
    ((!truthyStr q || ty.isNone) = true →
      spotifyLibraryRun
        { operation := .search, query := q, type := ty, limit := lim,
          offset := off } resp = ([], "Error: query and type required")) ∧
    (truthyStr pid = false →
      spotifyLibraryRun
        { operation := .playlist_tracks, playlist_id := pid, limit := lim,
          offset := off } resp = ([], "Error: playlist_id required")) ∧
    (hasElems aids = false →
      spotifyLibraryRun { operation := .albums, album_ids := aids } resp =
        ([], "Error: album_ids required") ∧
      spotifyLibraryRun { operation := .save_album, album_ids := aids } resp =
        ([], "Error: album_ids required") ∧
      spotifyLibraryRun { operation := .remove_album, album_ids := aids } resp =
        ([], "Error: album_ids required") ∧
      spotifyLibraryRun { operation := .check_saved, album_ids := aids } resp =
        ([], "Error: album_ids required")) ∧
    (truthyStr (aids.bind fun l => l[0]?) = false →
      spotifyLibraryRun
        { operation := .album_tracks, album_ids := aids, limit := lim,
          offset := off } resp = ([], "Error: album_ids[0] required")) ∧
    (truthyStr nm = false →
      spotifyPlaybackRun
        { operation := .create_playlist, name := nm, description := desc,
          isPublic := pub } presp = ([], "Error: name required")) ∧
    ((truthyStr pid && hasElems tids) = false →
      spotifyPlaybackRun
        { operation := .add_to_playlist, playlist_id := pid,
          track_ids := tids, position := pos } presp =
        ([], "Error: playlist_id and track_ids required")) ∧
    (truthyStr tid = false →
      infoAudioFeaturesRun tid feats = ([], "Error: track_id required")) := by
  refine ⟨fun h => ?_, fun h => ?_, fun h => ?_, fun h => ?_, fun h => ?_,
    fun h => ?_, fun h => ?_⟩
  · simp [spotifyLibraryRun, h]
  · simp [spotifyLibraryRun, h]
  · match aids, h with
    | none, _ => exact ⟨by simp [spotifyLibraryRun], by simp [spotifyLibraryRun],
        by simp [spotifyLibraryRun], by simp [spotifyLibraryRun]⟩
    | some [], _ => exact ⟨by simp [spotifyLibraryRun], by simp [spotifyLibraryRun],
        by simp [spotifyLibraryRun], by simp [spotifyLibraryRun]⟩
    | some (a :: l), h => exact absurd h (by simp [hasElems])
  · match aids, h with
    | none, _ => simp [spotifyLibraryRun]
    | some ids, h =>
      have h0 : truthyStr ids[0]? = false := by simpa using h
      simp [spotifyLibraryRun, h0]
  · simp [spotifyPlaybackRun, h]
  · have hcond : (!truthyStr pid || !hasElems tids) = true := by
      cases hp : truthyStr pid <;> cases ht : hasElems tids <;> simp_all
    simp [spotifyPlaybackRun, hcond]
  · simp [infoAudioFeaturesRun, h]

/-- Witness for C8_validation: each validation failure evaluated at concrete
arguments. -/
theorem C8_validation_witness :
    spotifyLibraryRun { operation := .search } {} =
      ([], "Error: query and type required") ∧
    spotifyLibraryRun { operation := .playlist_tracks } {} =
      ([], "Error: playlist_id required") ∧
    spotifyLibraryRun { operation := .save_album, album_ids := some [] } {} =
      ([], "Error: album_ids required") ∧
    spotifyLibraryRun { operation := .album_tracks } {} =
      ([], "Error: album_ids[0] required") ∧
    spotifyPlaybackRun { operation := .create_playlist } {} =
      ([], "Error: name required") ∧
    spotifyPlaybackRun { operation := .add_to_playlist, track_ids := some ["x"] } {} =
      ([], "Error: playlist_id and track_ids required") ∧
    infoAudioFeaturesRun none none = ([], "Error: track_id required") := by
  have h1 := C8_validation {} {} none none none none none (some []) (some ["x"])
    none none none none none none
  have h2 := C8_validation {} {} none none none none none none none
    none none none none none none
  exact ⟨h1.1 (by decide), h1.2.1 (by decide), (h1.2.2.1 (by decide)).2.1,
    h2.2.2.2.1 (by decide), h1.2.2.2.2.1 (by decide),
    h1.2.2.2.2.2.1 (by decide), h1.2.2.2.2.2.2 (by decide)⟩
